import Mathlib

set_option autoImplicit false
set_option linter.unusedVariables false

/-
  Verification development for the pyodide WebAssembly runtime-layer backend.

  The Rust sources are shallowly embedded:
  * `PyValue` models a scripting-runtime any-object (a Python object that may
    proxy a host JavaScript object).  JavaScript/Python numbers are modelled by
    their exact values: integers by `Int`, floats by `Rat` (the model identifies
    an f32 with its exact IEEE widening into f64, which is injective and exact,
    so widening is the identity on the modelled value and narrowing a widened
    value is again the identity; NaN payload bit patterns are outside the model).
  * Fallible Rust code (`anyhow::Result`, `PyResult`) becomes `Except`.
  * A Rust panic (`unwrap`, `expect`, `assert!`) becomes the `panic` constructor
    of `PanicOr`.
  * Host-side mutable objects (a `WebAssembly.Table` instance) are passed as
    explicit state (`JsTable`).
-/

namespace Pwrl

/-- Result of a Rust computation that may panic instead of returning. -/
inductive PanicOr (α : Type) where
  | panic (msg : String)
  | ret (a : α)
deriving DecidableEq

/-- A raised Python exception surfaced through pyo3 (only its message is modelled). -/
structure PyErr where
  message : String
deriving DecidableEq

/-- An `anyhow::Error`: either a propagated Python exception or a fresh message
created by `anyhow::bail!`. -/
inductive RtError where
  | py (e : PyErr)
  | anyhowMsg (s : String)
deriving DecidableEq

/-- True exactly when the error is a propagated host/Python exception rather than
an adapter-level error message. -/
def RtError.is_host_exception : RtError → Bool
  | .py _ => true
  | .anyhowMsg _ => false

/-- `wasm_runtime_layer::ValueType` (external contract type). -/
inductive ValueType where
  | I32
  | I64
  | F32
  | F64
  | FuncRef
  | ExternRef
deriving DecidableEq

/-- The numeric value types. -/
def ValueType.is_num : ValueType → Bool
  | .I32 | .I64 | .F32 | .F64 => true
  | .FuncRef | .ExternRef => false

/-- `wasm_runtime_layer::FuncType` (params and results). -/
structure FuncType where
  params : List ValueType
  results : List ValueType
deriving DecidableEq

/-- `wasm_runtime_layer::GlobalType`. -/
structure GlobalType where
  content : ValueType
  mutable : Bool
deriving DecidableEq

/-- `wasm_runtime_layer::MemoryType`. -/
structure MemoryType where
  minimum : Nat
  maximum : Option Nat
deriving DecidableEq

/-- `wasm_runtime_layer::TableType`: element type plus limits. -/
structure TableType where
  element : ValueType
  minimum : Nat
  maximum : Option Nat
deriving DecidableEq

/-- Model of a scripting-runtime any-object (`Py<PyAny>`): the kinds of objects
the adapter actually passes across the foreign boundary.  Host `WebAssembly.*`
objects are modelled by an identifying payload; for a table the payload is its
current length (its element storage is modelled separately by `JsTable`). -/
inductive PyValue where
  | int (i : Int)
  | float (x : Rat)
  | pynone
  | funcHandle (h : Nat)
  | refTok (t : Nat)
  | tableObj (len : Nat)
  | globalObj (g : Nat)
  | memoryObj (m : Nat)
  | otherObj (o : Nat)
deriving DecidableEq

/-- Modelled from the spec: `src/func.rs` is not in the source snapshot.  Per
spec section 4.3 an exported `Func` stores the host callable together with its
`FuncType`; `Func::to_py` returns the host-callable handle carried by the func. -/
structure Func where
  handle : PyValue
  sig : FuncType
deriving DecidableEq

/-- Modelled from the spec: `src/externref.rs` is not in the source snapshot.
Per spec sections 3 and 4.7 an `ExternRef` holds an index into the owning
store payload table together with an opaque host token; `ExternRef::to_py`
returns the stored token. -/
structure ExternRef where
  idx : Nat
  tok : PyValue
deriving DecidableEq

/-- `wasm_runtime_layer::backend::Value` for this engine. -/
inductive Value where
  | I32 (v : Int)
  | I64 (v : Int)
  | F32 (x : Rat)
  | F64 (x : Rat)
  | FuncRef (f : Option Func)
  | ExternRef (r : Option ExternRef)
deriving DecidableEq

/-- `<Value<Engine> as ValueExt>::ty` from `src/conversion.rs`. -/
def Value.ty : Value → ValueType
  | .I32 _ => .I32
  | .I64 _ => .I64
  | .F32 _ => .F32
  | .F64 _ => .F64
  | .FuncRef _ => .FuncRef
  | .ExternRef _ => .ExternRef

/-- Rust-side well-formedness: the integer payloads fit their machine types
(an `i32`/`i64` value in the Rust source always does). -/
def Value.wf : Value → Bool
  | .I32 v => decide (-2147483648 ≤ v ∧ v < 2147483648)
  | .I64 v => decide (-9223372036854775808 ≤ v ∧ v < 9223372036854775808)
  | _ => true

/-- `<Value<Engine> as ToPy>::to_py` from `src/conversion.rs`: numerics become
Python numeric primitives via `ToPyObject`, a present funcref or externref
yields its carried handle or token, and an absent reference becomes `py.None()`. -/
def Value.to_py : Value → PyValue
  | .I32 v => .int v
  | .I64 v => .int v
  | .F32 x => .float x
  | .F64 x => .float x
  | .FuncRef (some f) => f.handle
  | .FuncRef none => .pynone
  | .ExternRef (some r) => r.tok
  | .ExternRef none => .pynone

/-- pyo3 `extract::<i32>`: succeeds on a Python int within the i32 range
(raising OverflowError outside it) and raises TypeError on anything that has
no integer index (a float in particular). -/
def extract_i32 : PyValue → Except PyErr Int
  | .int i =>
      if -2147483648 ≤ i ∧ i < 2147483648 then .ok i
      else .error ⟨"OverflowError: Python int too large to convert"⟩
  | _ => .error ⟨"TypeError: cannot be interpreted as an integer"⟩

/-- pyo3 `extract::<i64>`: as `extract_i32` with the i64 range. -/
def extract_i64 : PyValue → Except PyErr Int
  | .int i =>
      if -9223372036854775808 ≤ i ∧ i < 9223372036854775808 then .ok i
      else .error ⟨"OverflowError: Python int too large to convert"⟩
  | _ => .error ⟨"TypeError: cannot be interpreted as an integer"⟩

/-- pyo3 `extract::<f64>` (`PyFloat_AsDouble`): succeeds on a Python float and
on a Python int (which is converted to a float), and raises TypeError otherwise. -/
def extract_f64 : PyValue → Except PyErr Rat
  | .float x => .ok x
  | .int i => .ok (i : Rat)
  | _ => .error ⟨"TypeError: must be real number"⟩

/-- pyo3 `extract::<f32>` narrows the extracted f64 with an `as` cast; on the
modelled exact values, narrowing a value that is an exact f32 widening is the
identity, which is how this model represents the cast. -/
def f64_as_f32 (x : Rat) : Rat := x

/-- `<Value<Engine> as ValueExt>::from_py_typed` from `src/conversion.rs`:
numeric declared types extract the corresponding machine value, while a
declared `FuncRef` or `ExternRef` type always bails. -/
def Value.from_py_typed (value : PyValue) (ty : ValueType) : Except RtError Value :=
  match ty with
  | .I32 =>
      match extract_i32 value with
      | .ok v => .ok (.I32 v)
      | .error e => .error (.py e)
  | .I64 =>
      match extract_i64 value with
      | .ok v => .ok (.I64 v)
      | .error e => .error (.py e)
  | .F32 =>
      match extract_f64 value with
      | .ok x => .ok (.F32 (f64_as_f32 x))
      | .error e => .error (.py e)
  | .F64 =>
      match extract_f64 value with
      | .ok x => .ok (.F64 x)
      | .error e => .error (.py e)
  | .FuncRef | .ExternRef =>
      .error (.anyhowMsg "conversion to a function or extern outside of a module not permitted")

/-- True exactly when an `Except` computation succeeded. -/
def exOk {ε α : Type} : Except ε α → Bool
  | .ok _ => true
  | .error _ => false

/-- The claim-side coercion predicate: the foreign value cannot be coerced into
the declared numeric type (false whenever the declared type is not numeric). -/
def cannot_coerce_to_num (value : PyValue) : ValueType → Bool
  | .I32 => !(exOk (extract_i32 value))
  | .I64 => !(exOk (extract_i64 value))
  | .F32 => !(exOk (extract_f64 value))
  | .F64 => !(exOk (extract_f64 value))
  | .FuncRef | .ExternRef => false

/-- Spec-side restatement of the `to_py` mapping, written from the words of the
specification (section 4.1): numeric variants map directly to scripting-runtime
numeric primitives, `FuncRef (some f)` returns the host-callable handle carried
by `f`, `ExternRef (some r)` returns the opaque host token stored for `r`, and
either `none` variant returns the scripting-runtime null. -/
def to_py_spec : Value → PyValue
  | .I32 v => .int v
  | .I64 v => .int v
  | .F32 x => .float x
  | .F64 x => .float x
  | .FuncRef (some f) => f.handle
  | .ExternRef (some r) => r.tok
  | .FuncRef none => .pynone
  | .ExternRef none => .pynone

/- ===== Tables (`src/table.rs`) ===== -/

/-- The state of a host `WebAssembly.Table` object: its current elements. -/
structure JsTable where
  elements : List PyValue
deriving DecidableEq

/-- The RangeError the host raises for an out-of-range table access, as the
pyo3 bridge surfaces it. -/
def js_table_range_error : PyErr := ⟨"RangeError: invalid address in Table.get or Table.set"⟩

/-- Host `WebAssembly.Table.prototype.get`: returns the element at `index`,
throwing a RangeError when `index` is at or beyond the current length. -/
def JsTable.host_get (t : JsTable) (index : Nat) : Except PyErr PyValue :=
  match t.elements.get? index with
  | some v => .ok v
  | none => .error js_table_range_error

/-- Host `WebAssembly.Table.prototype.set`: replaces the element at `index`,
throwing a RangeError when `index` is at or beyond the current length. -/
def JsTable.host_set (t : JsTable) (index : Nat) (v : PyValue) : Except PyErr JsTable :=
  if index < t.elements.length then .ok ⟨t.elements.set index v⟩
  else .error js_table_range_error

/-- The `Table` wrapper from `src/table.rs`: a handle to the host table object
plus its declared `TableType`. -/
structure Table where
  table : PyValue
  ty : TableType
deriving DecidableEq

/-- `<Table as ToPy>::to_py` from `src/table.rs`: clones the handle. -/
def Table.to_py (t : Table) : PyValue := t.table

/-- The panic message of `Result::unwrap` on an error value. -/
def unwrap_failed_msg : String := "called Result unwrap on an Err value"

/-- `Table::get` from `src/table.rs`: calls the host `get` method, mapping a
host exception to `None` via `.ok()?`; on host success the fetched element is
passed through `from_py_typed` against the declared element type and the result
is `unwrap`ped. -/
def Table.get (self : Table) (host : JsTable) (index : Nat) : PanicOr (Option Value) :=
  match host.host_get index with
  | .error _ => .ret none
  | .ok value =>
      match Value.from_py_typed value self.ty.element with
      | .ok v => .ret (some v)
      | .error _ => .panic unwrap_failed_msg

/-- `Table::set` from `src/table.rs`: converts the value with `to_py` and calls
the host `set` method, propagating a host exception unchanged with `?`. -/
def Table.set (self : Table) (host : JsTable) (index : Nat) (value : Value) :
    Except RtError JsTable :=
  let v := value.to_py
  match host.host_set index v with
  | .ok h => .ok h
  | .error e => .error (.py e)

/-- The `instanceof(value, WebAssembly.Table)` check from `src/conversion.rs`,
on the modelled any-objects: true exactly for host table objects. -/
def instanceof_wasm_table : PyValue → Bool
  | .tableObj _ => true
  | _ => false

/-- Reading the `length` attribute of an any-object and extracting a `u32`:
succeeds exactly on a host table object. -/
def getattr_length : PyValue → Except PyErr Nat
  | .tableObj len => .ok len
  | _ => .error ⟨"AttributeError: length"⟩

/-- `Table::from_exported_table` from `src/table.rs`: bails unless the value is
an instance of `WebAssembly.Table`, reads the observed length, `assert!`s that
it is at least the declared minimum, `assert_eq!`s that the declared element
type is funcref, and wraps the value with its declared type. -/
def Table.from_exported_table (value : PyValue) (ty : TableType) :
    PanicOr (Except RtError Table) :=
  if instanceof_wasm_table value then
    match getattr_length value with
    | .error e => .ret (.error (.py e))
    | .ok table_length =>
        if table_length ≥ ty.minimum then
          if ty.element = ValueType.FuncRef then
            .ret (.ok { table := value, ty := ty })
          else
            .panic "assertion failed: ty.element() == ValueType::FuncRef"
        else
          .panic "assertion failed: table_length >= ty.minimum()"
  else
    .ret (.error (.anyhowMsg "expected WebAssembly.Table but found another value"))

/-- Spec-side restatement of `Table::from_exported_table`, written from the
words of the claim: an error for every value that is not an instance of
`WebAssembly.Table`; for every value that is, assertions (panics) that the
observed table length is at least the declared minimum and that the declared
element type is funcref; otherwise a `Table` wrapping the value with its
declared type. -/
def from_exported_table_spec (value : PyValue) (ty : TableType) :
    PanicOr (Except RtError Table) :=
  if instanceof_wasm_table value = false then
    .ret (.error (.anyhowMsg "expected WebAssembly.Table but found another value"))
  else
    match getattr_length value with
    | .error e => .ret (.error (.py e))
    | .ok table_length =>
        if table_length < ty.minimum then
          .panic "assertion failed: table_length >= ty.minimum()"
        else if ty.element ≠ ValueType.FuncRef then
          .panic "assertion failed: ty.element() == ValueType::FuncRef"
        else
          .ret (.ok { table := value, ty := ty })

/- ===== Globals, memories, funcs (spec-modelled carriers) ===== -/

/-- Modelled from the spec: `src/global.rs` is not in the source snapshot.  Per
spec section 4.2 a `Global` is a thin wrapper of the host handle plus its
declared type. -/
structure Global where
  global : PyValue
  ty : GlobalType
deriving DecidableEq

/-- Modelled from the spec: `src/memory.rs` is not in the source snapshot.  Per
spec section 4.2 a `Memory` is a thin wrapper of the host handle plus its
declared type. -/
structure Memory where
  memory : PyValue
  ty : MemoryType
deriving DecidableEq

/-- Modelled from the spec: `Func::from_exported_function` (spec section 4.3)
stores the host callable together with its declared signature. -/
def Func.from_exported_function (value : PyValue) (sig : FuncType) : Except RtError Func :=
  .ok { handle := value, sig := sig }

/-- Modelled from the spec: `Global::from_exported_global` (spec section 4.2)
verifies that the value is an instance of `WebAssembly.Global` and wraps it
with its declared type. -/
def Global.from_exported_global (value : PyValue) (sig : GlobalType) : Except RtError Global :=
  match value with
  | .globalObj g => .ok { global := .globalObj g, ty := sig }
  | _ => .error (.anyhowMsg "expected WebAssembly.Global but found another value")

/-- Modelled from the spec: `Memory::from_exported_memory` (spec section 4.2)
verifies that the value is an instance of `WebAssembly.Memory` and wraps it
with its declared type. -/
def Memory.from_exported_memory (value : PyValue) (ty : MemoryType) : Except RtError Memory :=
  match value with
  | .memoryObj m => .ok { memory := .memoryObj m, ty := ty }
  | _ => .error (.anyhowMsg "expected WebAssembly.Memory but found another value")

/-- `wasm_runtime_layer::ExternType`: the declared type of an import or export. -/
inductive ExternType where
  | func (sig : FuncType)
  | global (sig : GlobalType)
  | memory (ty : MemoryType)
  | table (ty : TableType)
deriving DecidableEq

/-- `wasm_runtime_layer::backend::Extern` for this engine. -/
inductive Extern where
  | func (f : Func)
  | global (g : Global)
  | memory (m : Memory)
  | table (t : Table)
deriving DecidableEq

/-- `<Extern<Engine> as ToPy>::to_py` from `src/conversion.rs`: dispatches to
the wrapped resource, each of which yields its host handle. -/
def Extern.to_py : Extern → PyValue
  | .global v => v.global
  | .table v => v.to_py
  | .memory v => v.memory
  | .func v => v.handle

/- ===== Instances (`src/instance.rs`) ===== -/

/-- The export signature table of the externally parsed module
(`ParsedModule.exports`, a name-keyed map). -/
structure ParsedModule where
  exports : List (String × ExternType)

/-- Map lookup in `ParsedModule.exports`. -/
def ParsedModule.lookup_export (parsed : ParsedModule) (name : String) : Option ExternType :=
  (parsed.exports.find? (fun p => p.1 = name)).map (fun p => p.2)

/-- Setting a key in a Python dict (`dict.__setitem__`, as `into_py_dict`
performs it pair by pair): an existing key keeps its position but receives the
new value, a fresh key is appended. -/
def py_dict_set (d : List (String × PyValue)) (k : String) (v : PyValue) :
    List (String × PyValue) :=
  if d.any (fun p => p.1 = k) then d.map (fun p => if p.1 = k then (k, v) else p)
  else d ++ [(k, v)]

/-- pyo3 `into_py_dict`: builds a Python dict by setting the pairs in order
(so a later pair with a duplicate key silently overwrites the earlier value). -/
def into_py_dict (l : List (String × PyValue)) : List (String × PyValue) :=
  l.foldl (fun d p => py_dict_set d p.1 p.2) []

/-- One step of the `BTreeMap` fold in `create_imports_object`:
`acc.entry(m).or_default().push(value)` on a map kept sorted by key. -/
def btree_push (acc : List (String × List (String × PyValue))) (m : String)
    (v : String × PyValue) : List (String × List (String × PyValue)) :=
  match acc with
  | [] => [(m, [v])]
  | (k, l) :: rest =>
      if m = k then (k, l ++ [v]) :: rest
      else if m < k then (m, [v]) :: (k, l) :: rest
      else (k, l) :: btree_push rest m v

/-- `create_imports_object` from `src/instance.rs`: converts each import with
`to_py`, folds the `((module, name), import)` pairs into a
`BTreeMap<String, Vec<(String, PyAny)>>`, and turns each inner vector and the
outer map into Python dicts. -/
def create_imports_object (imps : List ((String × String) × Extern)) :
    List (String × List (String × PyValue)) :=
  (imps.foldl (fun acc i => btree_push acc i.1.1 (i.1.2, i.2.to_py)) []).map
    (fun p => (p.1, into_py_dict p.2))

/-- Processing of one `(name, value)` export entry in `process_exports` from
`src/instance.rs`: the declared `ExternType` is looked up in the parsed export
table with `.expect("export signature")` (a panic when absent) and the entry is
dispatched to the matching `from_exported_*` constructor. -/
def process_export_entry (parsed : ParsedModule) (name : String) (value : PyValue) :
    PanicOr (Except RtError (String × Extern)) :=
  match parsed.lookup_export name with
  | none => .panic "export signature"
  | some signature =>
      match signature with
      | .func sig =>
          match Func.from_exported_function value sig with
          | .ok f => .ret (.ok (name, .func f))
          | .error e => .ret (.error e)
      | .global sig =>
          match Global.from_exported_global value sig with
          | .ok g => .ret (.ok (name, .global g))
          | .error e => .ret (.error e)
      | .memory ty =>
          match Memory.from_exported_memory value ty with
          | .ok m => .ret (.ok (name, .memory m))
          | .error e => .ret (.error e)
      | .table ty =>
          match Table.from_exported_table value ty with
          | .panic msg => .panic msg
          | .ret (.ok t) => .ret (.ok (name, .table t))
          | .ret (.error e) => .ret (.error e)

/-- `process_exports` from `src/instance.rs`: iterates the host instance
exports in order and collects the processed entries, stopping at the first
error (and propagating any panic). -/
def process_exports (entries : List (String × PyValue)) (parsed : ParsedModule) :
    PanicOr (Except RtError (List (String × Extern))) :=
  match entries with
  | [] => .ret (.ok [])
  | (name, value) :: rest =>
      match process_export_entry parsed name value with
      | .panic msg => .panic msg
      | .ret (.error e) => .ret (.error e)
      | .ret (.ok ex) =>
          match process_exports rest parsed with
          | .panic msg => .panic msg
          | .ret (.error e) => .ret (.error e)
          | .ret (.ok rest2) => .ret (.ok (ex :: rest2))

/- ===== Stores (`src/store.rs`) ===== -/

/-- The zero-sized `Engine` marker from `src/lib.rs`. -/
structure Engine where
  mk ::
deriving DecidableEq

/-- Modelled from the spec: `InstanceInner` (spec section 4.5) records the host
instance handle together with the resolved export map; `src/instance.rs` in the
snapshot predates the `InstanceInner` split that `src/store.rs` refers to. -/
structure InstanceInner where
  host_handle : PyValue
  exports : List (String × Extern)
deriving DecidableEq

/-- `Instance` as `src/store.rs` constructs it: an index into the instance
table of the owning store. -/
structure Instance where
  id : Nat
deriving DecidableEq

/-- The `slab::Slab` collection, modelled by its documented semantics: a slot
array where `insert` fills the first vacant slot (or appends when none is
vacant) and returns its index. -/
structure Slab (α : Type) where
  entries : List (Option α)

/-- An empty slab (`Slab::new`). -/
def Slab.empty {α : Type} : Slab α := ⟨[]⟩

/-- The first vacant slot of a slab slot array, if any. -/
def find_vacant {α : Type} : List (Option α) → Option Nat
  | [] => none
  | none :: _ => some 0
  | some _ :: rest => (find_vacant rest).map (· + 1)

/-- `Slab::insert`: stores the value in the first vacant slot, appending a new
slot when every slot is occupied, and returns the key. -/
def Slab.insert {α : Type} (s : Slab α) (a : α) : Slab α × Nat :=
  match find_vacant s.entries with
  | some i => (⟨s.entries.set i (some a)⟩, i)
  | none => (⟨s.entries ++ [some a]⟩, s.entries.length)

/-- `Slab::get`: the value stored under a key, if the slot exists and is
occupied. -/
def Slab.get {α : Type} (s : Slab α) (i : Nat) : Option α :=
  match s.entries.get? i with
  | some o => o
  | none => none

/-- A slab with no vacant slot (every slot occupied); a store that only ever
inserts keeps its instance slab in this state. -/
def Slab.full {α : Type} (s : Slab α) : Prop :=
  ∀ o ∈ s.entries, o.isSome

/-- `StoreInner<T>` from `src/store.rs`: engine, instance slab, and user data. -/
structure StoreInner (T : Type) where
  engine : Engine
  instances : Slab InstanceInner
  data : T

/-- `StoreInner::insert_instance` from `src/store.rs`: inserts into the
instance slab and wraps the returned key in an `Instance`; no operation of the
store ever removes an instance again. -/
def StoreInner.insert_instance {T : Type} (st : StoreInner T) (inst : InstanceInner) :
    StoreInner T × Instance :=
  let r := st.instances.insert inst
  ({ st with instances := r.1 }, { id := r.2 })

/-- The outer `Store<T>` handle from `src/store.rs`; the unique owner of the
heap-pinned `StoreInner<T>` box, modelled by direct containment. -/
structure Store (T : Type) where
  inner : StoreInner T

/-- `Store::new` from `src/store.rs`: boxes a fresh `StoreInner` holding the
engine, an empty instance slab, and the user data. -/
def Store.new {T : Type} (engine : Engine) (data : T) : Store T :=
  ⟨{ engine := engine, instances := Slab.empty, data := data }⟩

/-- Deallocation-relevant events of a `Store` operation, in execution order. -/
inductive MemEvent where
  | store_drop_run
  | dealloc_inner
deriving DecidableEq

/-- `<Store<T> as Drop>::drop` from `src/store.rs`: the drop glue runs and
frees the inner box once (`drop(Box::from_raw(self.inner))`). -/
def Store.drop_events {T : Type} (_ : Store T) : List MemEvent :=
  [.store_drop_run, .dealloc_inner]

/-- `Box::from_raw(self.inner)` in `Store::into_data`: re-takes ownership of
the inner box without touching the heap. -/
def box_from_raw {T : Type} (s : Store T) : StoreInner T := s.inner

/-- `mem::forget(self)` in `Store::into_data`: suppresses the `Store` drop
glue, so the handle contributes no events. -/
def mem_forget_events : List MemEvent := []

/-- Dropping the re-taken `Box<StoreInner<T>>` at the end of the
`Store::into_data` scope: the inner box is freed exactly once. -/
def box_drop_events : List MemEvent := [MemEvent.dealloc_inner]

/-- `Store::into_data` from `src/store.rs`: re-takes the inner box, forgets the
handle so `<Store<T> as Drop>::drop` never runs, and moves the user data out;
the box is deallocated at the end of the scope.  The second component records
the deallocation events in execution order. -/
def Store.into_data {T : Type} (s : Store T) : T × List MemEvent :=
  let ptr := box_from_raw s
  (ptr.data, mem_forget_events ++ box_drop_events)

/-- A sequence of `insert_instance` calls against a store (the only operation
that ever touches the instance slab), returning the final store together with
the assigned indices in order. -/
def run_inserts {T : Type} (st : StoreInner T) : List InstanceInner → StoreInner T × List Nat
  | [] => (st, [])
  | i :: rest =>
      let r := st.insert_instance i
      let r2 := run_inserts r.1 rest
      (r2.1, r.2.id :: r2.2)

/- ===== Theorems ===== -/

/-- C3: for every numeric Value v (I32, I64, F32, or F64) with value type t,
converting v to a foreign object with to_py and back with from_py_typed against
t yields v again (numeric round-trip is the identity). -/
theorem numeric_roundtrip (v : Value) (hnum : (Value.ty v).is_num = true)
    (hwf : Value.wf v = true) :
    Value.from_py_typed (Value.to_py v) (Value.ty v) = Except.ok v := by
  cases v with
  | I32 n =>
      have h : -2147483648 ≤ n ∧ n < 2147483648 := by
        simpa [Value.wf] using hwf
      simp [Value.ty, Value.to_py, Value.from_py_typed, extract_i32, h.1, h.2]
  | I64 n =>
      have h : -9223372036854775808 ≤ n ∧ n < 9223372036854775808 := by
        simpa [Value.wf] using hwf
      simp [Value.ty, Value.to_py, Value.from_py_typed, extract_i64, h.1, h.2]
  | F32 x =>
      simp [Value.ty, Value.to_py, Value.from_py_typed, extract_f64, f64_as_f32]
  | F64 x =>
      simp [Value.ty, Value.to_py, Value.from_py_typed, extract_f64]
  | FuncRef f =>
      simp [Value.ty, ValueType.is_num] at hnum
  | ExternRef r =>
      simp [Value.ty, ValueType.is_num] at hnum

/-- Witness for C3 at the concrete value I32 42. -/
theorem numeric_roundtrip_witness :
    (Value.ty (Value.I32 42)).is_num = true ∧ Value.wf (Value.I32 42) = true ∧
      Value.from_py_typed (Value.to_py (Value.I32 42)) (Value.ty (Value.I32 42)) =
        Except.ok (Value.I32 42) :=
  ⟨by decide, by decide, numeric_roundtrip (Value.I32 42) (by decide) (by decide)⟩

/-- C4: for every foreign value, from_py_typed returns an error exactly when
either the value cannot be coerced to the declared numeric type, or the
declared type is FuncRef or ExternRef. -/
theorem from_py_typed_error_iff (value : PyValue) (ty : ValueType) :
    exOk (Value.from_py_typed value ty) = false ↔
      (cannot_coerce_to_num value ty = true ∨
        ty = ValueType.FuncRef ∨ ty = ValueType.ExternRef) := by
  cases ty with
  | I32 =>
      cases h : extract_i32 value <;>
        simp [Value.from_py_typed, cannot_coerce_to_num, h, exOk]
  | I64 =>
      cases h : extract_i64 value <;>
        simp [Value.from_py_typed, cannot_coerce_to_num, h, exOk]
  | F32 =>
      cases h : extract_f64 value <;>
        simp [Value.from_py_typed, cannot_coerce_to_num, h, exOk]
  | F64 =>
      cases h : extract_f64 value <;>
        simp [Value.from_py_typed, cannot_coerce_to_num, h, exOk]
  | FuncRef =>
      simp [Value.from_py_typed, cannot_coerce_to_num, exOk]
  | ExternRef =>
      simp [Value.from_py_typed, cannot_coerce_to_num, exOk]

/-- C10: to_py maps the numeric variants directly to scripting-runtime numeric
primitives, maps FuncRef (some f) to the host-callable handle carried by f and
ExternRef (some r) to the stored token of r, and maps both none variants to the
scripting-runtime null. -/
theorem to_py_matches_spec (v : Value) : Value.to_py v = to_py_spec v := by
  cases v with
  | I32 n => rfl
  | I64 n => rfl
  | F32 x => rfl
  | F64 x => rfl
  | FuncRef f => cases f <;> rfl
  | ExternRef r => cases r <;> rfl

/-- C7: from_exported_table errors on every value that is not an instance of
WebAssembly.Table; on every value that is, it asserts (panics unless) the
observed length is at least the declared minimum and the declared element type
is funcref, and otherwise returns a Table wrapping the value with its declared
type. -/
theorem from_exported_table_matches_spec (value : PyValue) (ty : TableType) :
    Table.from_exported_table value ty = from_exported_table_spec value ty := by
  cases value
  case tableObj len =>
    by_cases hlen : ty.minimum ≤ len
    · by_cases helem : ty.element = ValueType.FuncRef <;>
        simp [Table.from_exported_table, from_exported_table_spec, instanceof_wasm_table,
          getattr_length, ge_iff_le, hlen, helem, Nat.not_lt.mpr hlen]
    · have hlt : len < ty.minimum := Nat.lt_of_not_le hlen
      simp [Table.from_exported_table, from_exported_table_spec, instanceof_wasm_table,
        getattr_length, ge_iff_le, hlen, hlt]
  all_goals
    simp [Table.from_exported_table, from_exported_table_spec, instanceof_wasm_table,
      getattr_length]

/-- C8: during export processing, each (name, value) entry looks the declared
ExternType up in the parsed export table and panics with the expect message
when the name is absent from the parsed exports. -/
theorem process_exports_missing_signature_panics (name : String) (value : PyValue)
    (rest : List (String × PyValue)) (parsed : ParsedModule)
    (h : parsed.lookup_export name = none) :
    process_exports ((name, value) :: rest) parsed = PanicOr.panic "export signature" := by
  simp [process_exports, process_export_entry, h]

/-- Witness for C8: a module whose parsed export table is empty panics on the
first enumerated export. -/
theorem process_exports_missing_signature_panics_witness :
    (ParsedModule.mk []).lookup_export "f" = none ∧
      process_exports [("f", PyValue.funcHandle 0)] (ParsedModule.mk []) =
        PanicOr.panic "export signature" :=
  ⟨rfl, process_exports_missing_signature_panics "f" (PyValue.funcHandle 0) []
    (ParsedModule.mk []) rfl⟩

/-- C5: for a table whose declared element type is FuncRef or ExternRef,
whenever the host-level get succeeds, Table::get panics on the unwrap of
from_py_typed, and Table::get never returns some value. -/
theorem table_get_ref_element_panics (self : Table) (host : JsTable) (index : Nat)
    (helem : self.ty.element = ValueType.FuncRef ∨ self.ty.element = ValueType.ExternRef)
    (hin : index < host.elements.length) :
    Table.get self host index = PanicOr.panic unwrap_failed_msg ∧
      ∀ (i : Nat) (v : Value), Table.get self host i ≠ PanicOr.ret (some v) := by
  constructor
  · cases hg : host.host_get index with
    | error e =>
        exfalso
        simp [JsTable.host_get, List.getElem?_eq_getElem hin] at hg
    | ok w =>
        rcases helem with h | h <;>
          simp [Table.get, hg, h, Value.from_py_typed]
  · intro i v
    cases hg : host.host_get i with
    | error e => simp [Table.get, hg]
    | ok w =>
        rcases helem with h | h <;>
          simp [Table.get, hg, h, Value.from_py_typed]

/-- Witness for C5 at a funcref table of length one. -/
theorem table_get_ref_element_panics_witness :
    ((Table.mk (PyValue.tableObj 1) ⟨ValueType.FuncRef, 1, none⟩).ty.element
        = ValueType.FuncRef ∨
      (Table.mk (PyValue.tableObj 1) ⟨ValueType.FuncRef, 1, none⟩).ty.element
        = ValueType.ExternRef) ∧
    0 < (JsTable.mk [PyValue.pynone]).elements.length ∧
      Table.get (Table.mk (PyValue.tableObj 1) ⟨ValueType.FuncRef, 1, none⟩)
          (JsTable.mk [PyValue.pynone]) 0
        = PanicOr.panic unwrap_failed_msg :=
  ⟨Or.inl rfl, by decide,
    (table_get_ref_element_panics (Table.mk (PyValue.tableObj 1) ⟨ValueType.FuncRef, 1, none⟩)
      (JsTable.mk [PyValue.pynone]) 0 (Or.inl rfl) (by decide)).1⟩

/-- C2 counterexample: at an out-of-range index, Table::set returns the
propagated host RangeError (a generic host exception), not an adapter-level
OutOfBounds error kind; the code defines no OutOfBounds error at all. -/
theorem table_set_oob_counterexample :
    Table.set (Table.mk (PyValue.tableObj 2) ⟨ValueType.FuncRef, 2, none⟩)
        (JsTable.mk [PyValue.pynone, PyValue.pynone]) 5 (Value.FuncRef none)
      = Except.error (RtError.py js_table_range_error) ∧
      (RtError.py js_table_range_error).is_host_exception = true :=
  ⟨rfl, rfl⟩

/-- C2 amended: at every index at or beyond the current size, Table::get
returns None, and Table::set fails by propagating the host RangeError
unchanged (a host exception, not a distinguished OutOfBounds error kind). -/
theorem table_oob_get_none_set_host_error (self : Table) (host : JsTable) (index : Nat)
    (value : Value) (h : host.elements.length ≤ index) :
    Table.get self host index = PanicOr.ret none ∧
      Table.set self host index value = Except.error (RtError.py js_table_range_error) := by
  have hget : host.elements[index]? = none := List.getElem?_eq_none h
  constructor
  · simp [Table.get, JsTable.host_get, hget]
  · simp [Table.set, JsTable.host_set, Nat.not_lt.mpr h]

/-- Witness for the amended C2 at a table of length two and index five. -/
theorem table_oob_get_none_set_host_error_witness :
    (JsTable.mk [PyValue.pynone, PyValue.pynone]).elements.length ≤ 5 ∧
      Table.get (Table.mk (PyValue.tableObj 2) ⟨ValueType.FuncRef, 2, none⟩)
          (JsTable.mk [PyValue.pynone, PyValue.pynone]) 5 = PanicOr.ret none ∧
      Table.set (Table.mk (PyValue.tableObj 2) ⟨ValueType.FuncRef, 2, none⟩)
          (JsTable.mk [PyValue.pynone, PyValue.pynone]) 5 (Value.FuncRef none)
        = Except.error (RtError.py js_table_range_error) :=
  ⟨by decide,
    (table_oob_get_none_set_host_error (Table.mk (PyValue.tableObj 2) ⟨ValueType.FuncRef, 2, none⟩)
      (JsTable.mk [PyValue.pynone, PyValue.pynone]) 5 (Value.FuncRef none) (by decide)).1,
    (table_oob_get_none_set_host_error (Table.mk (PyValue.tableObj 2) ⟨ValueType.FuncRef, 2, none⟩)
      (JsTable.mk [PyValue.pynone, PyValue.pynone]) 5 (Value.FuncRef none) (by decide)).2⟩

/-- C1 counterexample: two imports with the same (module, name) pair are
silently merged by create_imports_object, the later entry overwriting the
earlier one in the generated imports object; no error is produced. -/
theorem create_imports_object_duplicate_counterexample :
    create_imports_object
        [(("env", "item"), Extern.global ⟨PyValue.globalObj 1, ⟨ValueType.I32, false⟩⟩),
         (("env", "item"), Extern.global ⟨PyValue.globalObj 2, ⟨ValueType.I32, false⟩⟩)]
      = [("env", [("item", PyValue.globalObj 2)])] := by
  decide

/-- C1 amended: for every duplicated (module, name) import pair, the
import-grouping step of Instance::new merges the two entries into a single
binding that carries the later import, rather than failing. -/
theorem create_imports_object_duplicate_merges (m n : String) (e1 e2 : Extern) :
    create_imports_object [((m, n), e1), ((m, n), e2)] = [(m, [(n, e2.to_py)])] := by
  simp [create_imports_object, btree_push, into_py_dict, py_dict_set]

/-- C6: into_data on a freshly constructed store returns exactly the user data
that was passed in, never runs the Store drop glue, and deallocates the inner
box exactly once. -/
theorem into_data_returns_data_single_dealloc {T : Type} (engine : Engine) (data : T) :
    (Store.new engine data).into_data = (data, [MemEvent.dealloc_inner]) ∧
      MemEvent.store_drop_run ∉ ((Store.new engine data).into_data).2 ∧
      ((Store.new engine data).into_data).2.count MemEvent.dealloc_inner = 1 := by
  refine ⟨rfl, ?_, rfl⟩
  simp [Store.into_data, mem_forget_events, box_drop_events]

/-- Helper: a slot array with every slot occupied has no vacant slot. -/
theorem find_vacant_all_some {α : Type} (es : List (Option α))
    (h : ∀ o ∈ es, o.isSome = true) : find_vacant es = none := by
  induction es with
  | nil => rfl
  | cons o rest ih =>
      cases o with
      | none =>
          have := h none (List.mem_cons_self _ _)
          simp at this
      | some a =>
          simp [find_vacant, ih (fun o ho => h o (List.mem_cons_of_mem _ ho))]

/-- Helper: inserting into a slab with every slot occupied appends a slot and
returns the previous length as the key. -/
theorem slab_insert_all_some {α : Type} (s : Slab α)
    (h : ∀ o ∈ s.entries, o.isSome = true) (a : α) :
    s.insert a = (⟨s.entries ++ [some a]⟩, s.entries.length) := by
  simp [Slab.insert, find_vacant_all_some s.entries h]

/-- Helper: running a sequence of instance insertions against a store whose
instance slab has every slot occupied appends the instances in order and
assigns the consecutive indices starting at the current length. -/
theorem run_inserts_all_some {T : Type} (st : StoreInner T)
    (h : ∀ o ∈ st.instances.entries, o.isSome = true) (l : List InstanceInner) :
    (run_inserts st l).1.instances.entries = st.instances.entries ++ l.map some ∧
      (run_inserts st l).2 = List.range' st.instances.entries.length l.length := by
  induction l generalizing st with
  | nil => simp [run_inserts]
  | cons i rest ih =>
      have hins := slab_insert_all_some st.instances h i
      have h2 : ∀ o ∈ (st.instances.entries ++ [some i]), o.isSome = true := by
        intro o ho
        rcases List.mem_append.mp ho with h' | h'
        · exact h o h'
        · simp at h'
          subst h'
          rfl
      have ihr := ih { st with instances := ⟨st.instances.entries ++ [some i]⟩ } h2
      constructor
      · simp only [run_inserts, StoreInner.insert_instance, hins]
        rw [ihr.1]
        simp
      · simp only [run_inserts, StoreInner.insert_instance, hins, List.length_cons]
        rw [List.range'_succ, ihr.2]
        simp

/-- C9: starting from a fresh store, consecutive insertions receive the
distinct indices zero, one, two, and so on, and each index keeps referring to
the same inserted instance no matter how many further insertions follow (the
store has no operation that removes instances). -/
theorem insert_instance_indices_distinct_and_stable {T : Type} (engine : Engine) (data : T)
    (l extra : List InstanceInner) :
    (run_inserts (Store.new engine data).inner l).2 = List.range l.length ∧
      ((run_inserts (Store.new engine data).inner l).2).Nodup ∧
      ∀ (i : Fin l.length),
        Slab.get (run_inserts (Store.new engine data).inner (l ++ extra)).1.instances i.val
          = some (l.get i) := by
  have hempty : ∀ o ∈ (Store.new engine data).inner.instances.entries, o.isSome = true := by
    intro o ho
    simp [Store.new, Slab.empty] at ho
  have hl := run_inserts_all_some (Store.new engine data).inner hempty l
  have hids : (run_inserts (Store.new engine data).inner l).2 = List.range l.length := by
    rw [hl.2]
    simp [Store.new, Slab.empty, List.range_eq_range']
  refine ⟨hids, ?_, ?_⟩
  · rw [hids]
    exact List.nodup_range l.length
  · intro i
    have hall := run_inserts_all_some (Store.new engine data).inner hempty (l ++ extra)
    have hentries : (run_inserts (Store.new engine data).inner (l ++ extra)).1.instances.entries
        = (l ++ extra).map some := by
      rw [hall.1]
      simp [Store.new, Slab.empty]
    have hi : i.val < l.length := i.isLt
    have hlen : i.val < ((l ++ extra).map some).length := by
      simp [List.length_append]
      omega
    have hfetch : ((l ++ extra).map some).get? i.val = some (some (l.get i)) := by
      rw [List.get?_eq_getElem?, List.getElem?_map, List.getElem?_append_left hi,
        List.getElem?_eq_getElem hi]
      simp [List.get_eq_getElem]
    simp only [Slab.get, hentries, hfetch]

end Pwrl
